import Mathlib

/-!
Verification of the `MRTMapInteraction` map-viewer component of
`src/js/app.js` (TravelMate).  The persistent state of the component is the
viewport transform (`scale`, `translateX`, `translateY`) together with the
ephemeral pan gesture (`isPanning`, `startX`, `startY`).  JavaScript numbers
are modelled as exact rationals (`ℚ`); the literals `0.2` and `1.5` become
`1/5` and `3/2`.
-/

namespace MRTMapInteraction

/-- The mutable fields set up in the constructor of `MRTMapInteraction`
(`src/js/app.js`, lines 351–358). `minScale` and `maxScale` are stored on the
instance like in the source, although no operation ever rewrites them. -/
structure MapState where
  scale : ℚ
  minScale : ℚ
  maxScale : ℚ
  isPanning : Bool
  startX : ℚ
  startY : ℚ
  translateX : ℚ
  translateY : ℚ
deriving DecidableEq

/-- Initial assignments of the constructor: scale 1, bounds [0.5, 3], no
gesture, zero translation. -/
def initState : MapState :=
  { scale := 1, minScale := 1/2, maxScale := 3, isPanning := false,
    startX := 0, startY := 0, translateX := 0, translateY := 0 }

/-- `zoomIn()`: if `scale < maxScale`, set `scale = Math.min(scale + 0.2, maxScale)`. -/
def zoomIn (s : MapState) : MapState :=
  if s.scale < s.maxScale then
    { s with scale := min (s.scale + 1/5) s.maxScale }
  else s

/-- `zoomOut()`: if `scale > minScale`, set `scale = Math.max(scale - 0.2, minScale)`. -/
def zoomOut (s : MapState) : MapState :=
  if s.scale > s.minScale then
    { s with scale := max (s.scale - 1/5) s.minScale }
  else s

/-- `resetZoom()`: scale 1, translation zero. -/
def resetZoom (s : MapState) : MapState :=
  { s with scale := 1, translateX := 0, translateY := 0 }

/-- `startPan(event)`: activates the gesture and records the anchor
`(clientX - translateX, clientY - translateY)`. -/
def startPan (x y : ℚ) (s : MapState) : MapState :=
  { s with isPanning := true, startX := x - s.translateX, startY := y - s.translateY }

/-- `pan(event)`: early return unless `isPanning`; otherwise the translation
becomes `(clientX - startX, clientY - startY)`. -/
def pan (x y : ℚ) (s : MapState) : MapState :=
  if s.isPanning then
    { s with translateX := x - s.startX, translateY := y - s.startY }
  else s

/-- `endPan()`: deactivates the gesture. -/
def endPan (s : MapState) : MapState :=
  { s with isPanning := false }

/-- One public pan/zoom operation of the viewer. -/
inductive MapOp where
  | zoomIn : MapOp
  | zoomOut : MapOp
  | resetZoom : MapOp
  | startPan (x y : ℚ) : MapOp
  | pan (x y : ℚ) : MapOp
  | endPan : MapOp

/-- Dispatch a single operation on the state. -/
def applyOp : MapOp → MapState → MapState
  | MapOp.zoomIn, s => zoomIn s
  | MapOp.zoomOut, s => zoomOut s
  | MapOp.resetZoom, s => resetZoom s
  | MapOp.startPan x y, s => startPan x y s
  | MapOp.pan x y, s => pan x y s
  | MapOp.endPan, s => endPan s

/-- Run a finite call sequence from a state. -/
def runOps : List MapOp → MapState → MapState
  | [], s => s
  | op :: rest, s => runOps rest (applyOp op s)

/-- The scale bounds of the viewer as configured by the constructor: the
bound fields keep their default values and the scale lies between them. -/
def ScaleBounds (s : MapState) : Prop :=
  s.minScale = 1/2 ∧ s.maxScale = 3 ∧ 1/2 ≤ s.scale ∧ s.scale ≤ 3

lemma scaleBounds_applyOp (op : MapOp) (s : MapState) (h : ScaleBounds s) :
    ScaleBounds (applyOp op s) := by
  obtain ⟨h1, h2, h3, h4⟩ := h
  cases op with
  | zoomIn =>
      simp only [applyOp, zoomIn]
      split
      · exact ⟨h1, h2, le_min (by linarith) (by linarith),
          le_trans (min_le_right _ _) (le_of_eq h2)⟩
      · exact ⟨h1, h2, h3, h4⟩
  | zoomOut =>
      simp only [applyOp, zoomOut]
      split
      · exact ⟨h1, h2, le_trans (le_of_eq h1.symm) (le_max_right _ _),
          max_le (by linarith) (by linarith)⟩
      · exact ⟨h1, h2, h3, h4⟩
  | resetZoom =>
      simp only [applyOp, resetZoom]
      exact ⟨h1, h2, by norm_num, by norm_num⟩
  | startPan x y => exact ⟨h1, h2, h3, h4⟩
  | pan x y =>
      simp only [applyOp, pan]
      split
      · exact ⟨h1, h2, h3, h4⟩
      · exact ⟨h1, h2, h3, h4⟩
  | endPan => exact ⟨h1, h2, h3, h4⟩

lemma scaleBounds_runOps (ops : List MapOp) (s : MapState) (h : ScaleBounds s) :
    ScaleBounds (runOps ops s) := by
  induction ops generalizing s with
  | nil => exact h
  | cons op rest ih => exact ih (applyOp op s) (scaleBounds_applyOp op s h)

/-- JavaScript `a || b` where `a` is either `null` (attribute absent) or a
string: falls through on `null` and on the empty string. -/
def jsOr (a : Option String) (b : String) : String :=
  match a with
  | none => b
  | some s => if s.isEmpty then b else s

/-- `stationName.replace(new RegExp("_", "g"), " ")`: every underscore becomes a
space. -/
def replaceUnderscores (s : String) : String :=
  String.mk (s.toList.map (fun c => if c = '_' then ' ' else c))

/-- The characters of the regex literal `station`. -/
def stationChars : List Char := ['s', 't', 'a', 't', 'i', 'o', 'n']

/-- Global case-insensitive replacement of `station` by the empty string on a
character list: scan left to right, and whenever the next seven characters
lowercase to `station`, drop them and continue after the match (a global
regex replace does not rescan replaced output). Fewer than seven characters
left cannot match. -/
def removeStationAux : List Char → List Char
  | c1 :: c2 :: c3 :: c4 :: c5 :: c6 :: c7 :: rest =>
      if [c1.toLower, c2.toLower, c3.toLower, c4.toLower,
          c5.toLower, c6.toLower, c7.toLower] = stationChars then
        removeStationAux rest
      else
        c1 :: removeStationAux (c2 :: c3 :: c4 :: c5 :: c6 :: c7 :: rest)
  | l => l

/-- `stationName.replace(new RegExp("station", "gi"), "")`. -/
def removeStationCI (s : String) : String :=
  String.mk (removeStationAux s.toList)

/-- ASCII whitespace for the purposes of `String.prototype.trim`. -/
def isJsWhitespace (c : Char) : Bool :=
  c = ' ' || c = '\t' || c = '\n' || c = '\r'

/-- `stationName.trim()`: strip whitespace from both ends. -/
def jsTrim (s : String) : String :=
  String.mk (((s.toList.dropWhile isJsWhitespace).reverse.dropWhile isJsWhitespace).reverse)

/-- The fallback chain of `showStationTooltip` (`src/js/app.js`, lines
462–465): `id || title || textContent || "Station"`. -/
def tooltipRawName (id title : Option String) (textContent : String) : String :=
  jsOr id (jsOr title (if textContent.isEmpty then "Station" else textContent))

/-- The cleanup applied by `showStationTooltip` (lines 468–470): underscores
to spaces, `station` removed case-insensitively, trimmed. -/
def cleanStationName (s : String) : String :=
  jsTrim (removeStationCI (replaceUnderscores s))

/-- The label written into the tooltip by `showStationTooltip` for a node
with the given `id`/`title` attributes and text content. -/
def showStationTooltipLabel (id title : Option String) (textContent : String) : String :=
  cleanStationName (tooltipRawName id title textContent)

/-- The station name resolved by `handleStationClick` (lines 495–498):
`id || title || textContent || "Unknown Station"`, with no cleanup. -/
def handleStationClickName (id title : Option String) (textContent : String) : String :=
  jsOr id (jsOr title (if textContent.isEmpty then "Unknown Station" else textContent))

/-- The notification text built by the `alert` call in `handleStationClick`. -/
def handleStationClickAlert (id title : Option String) (textContent : String) : String :=
  "Station: " ++ handleStationClickName id title textContent ++
    "\n\nThis feature can be expanded to show:\n- Connected lines\n- Nearby attractions\n- Transfer information\n- Exit information"

/-- `mouseenter` on a circular marker (line 429): radius times 1.5. -/
def hoverEnterRadius (r : ℚ) : ℚ := r * (3/2)

/-- `mouseleave` on a circular marker (line 437): radius divided by 1.5. -/
def hoverLeaveRadius (r : ℚ) : ℚ := r / (3/2)

/-- Result of `init()`: whether the event listeners got wired, plus the
state afterwards. -/
structure InitResult where
  listenersWired : Bool
  state : MapState
deriving DecidableEq

/-- `init()` (lines 363–410): early return when the wrapper or the object
element is missing; otherwise all listeners are attached. The pan/zoom
fields are untouched either way. -/
def init (hasMapWrapper hasMapObject : Bool) (s : MapState) : InitResult :=
  if !hasMapWrapper || !hasMapObject then
    { listenersWired := false, state := s }
  else
    { listenersWired := true, state := s }

/-- Outcome of reading `this.mapObject.contentDocument` inside
`setupSVGInteraction`: a queryable document with its station nodes, a `null`
document, or a thrown access error. -/
inductive SvgAccess where
  | ok (stationCount : Nat) : SvgAccess
  | nullDoc : SvgAccess
  | accessError (msg : String) : SvgAccess

/-- `setupSVGInteraction()` (lines 412–456): returns the state afterwards,
the number of station nodes made interactive, and the `console.error`
diagnostic if one was emitted. A `null` document hits the early
`if (!svgDoc) return` without logging; a thrown error is caught and logged;
the pan/zoom state is never touched. -/
def setupSVGInteraction (access : SvgAccess) (s : MapState) :
    MapState × Nat × Option String :=
  match access with
  | SvgAccess.ok stationCount => (s, stationCount, none)
  | SvgAccess.nullDoc => (s, 0, none)
  | SvgAccess.accessError msg =>
      (s, 0, some ("Error setting up SVG interaction: " ++ msg))

end MRTMapInteraction

namespace MRTMapInteraction

lemma removeStationAux_subset {c : Char} :
    ∀ l : List Char, c ∈ removeStationAux l → c ∈ l := by
  intro l
  induction l using removeStationAux.induct with
  | case1 c1 c2 c3 c4 c5 c6 c7 rest h ih =>
      rw [removeStationAux, if_pos h]
      intro hc
      simp only [List.mem_cons]
      exact Or.inr (Or.inr (Or.inr (Or.inr (Or.inr (Or.inr (Or.inr (ih hc)))))))
  | case2 c1 c2 c3 c4 c5 c6 c7 rest h ih =>
      rw [removeStationAux, if_neg h]
      intro hc
      rcases List.mem_cons.mp hc with hc | hc
      · exact List.mem_cons.mpr (Or.inl hc)
      · exact List.mem_cons.mpr (Or.inr (ih hc))
  | case3 l h =>
      intro hc
      rw [removeStationAux.eq_def] at hc
      split at hc
      · next c1 c2 c3 c4 c5 c6 c7 rest =>
          exact (h c1 c2 c3 c4 c5 c6 c7 rest rfl).elim
      · exact hc

lemma jsTrim_subset {c : Char} (s : String) (h : c ∈ (jsTrim s).toList) :
    c ∈ s.toList := by
  simp only [jsTrim, String.toList] at h ⊢
  rw [List.mem_reverse] at h
  have h2 := (List.dropWhile_sublist (l := (String.toList s).dropWhile isJsWhitespace |>.reverse)
    (p := isJsWhitespace)).subset h
  rw [List.mem_reverse] at h2
  exact (List.dropWhile_sublist (p := isJsWhitespace)).subset h2

lemma replaceUnderscores_no_underscore (s : String) :
    '_' ∉ (replaceUnderscores s).toList := by
  intro h
  simp only [replaceUnderscores, String.toList, List.mem_map] at h
  obtain ⟨c, _, hc⟩ := h
  by_cases hcu : c = '_'
  · rw [if_pos hcu] at hc
    exact absurd hc (by decide)
  · rw [if_neg hcu] at hc
    exact hcu hc

lemma cleanStationName_no_underscore (s : String) :
    '_' ∉ (cleanStationName s).toList := by
  intro h
  have h2 := jsTrim_subset _ h
  simp only [removeStationCI, String.toList] at h2
  exact replaceUnderscores_no_underscore s (removeStationAux_subset _ h2)

/-- C1: starting from the constructor state `{scale 1, translate (0,0)}` with
the default bounds `minScale = 0.5`, `maxScale = 3`, every finite sequence of
`zoomIn`, `zoomOut`, `resetZoom`, `startPan`, `pan`, `endPan` calls keeps the
invariant `minScale ≤ scale ≤ maxScale`, whatever the order or count. -/
theorem C1_scale_invariant (ops : List MapOp) :
    (runOps ops initState).minScale ≤ (runOps ops initState).scale ∧
    (runOps ops initState).scale ≤ (runOps ops initState).maxScale ∧
    (runOps ops initState).minScale = 1/2 ∧
    (runOps ops initState).maxScale = 3 := by
  have h : ScaleBounds (runOps ops initState) :=
    scaleBounds_runOps ops initState ⟨rfl, rfl, by norm_num [initState], by norm_num [initState]⟩
  obtain ⟨h1, h2, h3, h4⟩ := h
  exact ⟨by rw [h1]; exact h3, by rw [h2]; exact h4, h1, h2⟩

/-- C2: on any state whose scale respects the bounds, `zoomIn` sets the scale
to `min (scale + 0.2) maxScale` (hence is a no-op at `maxScale`, and three
further calls from scale 3 leave it at exactly 3), `zoomOut` sets it to
`max (scale - 0.2) minScale` (a no-op at `minScale`), and neither touches the
translation. -/
theorem C2_zoom_step (s : MapState) (h1 : s.minScale ≤ s.scale) (h2 : s.scale ≤ s.maxScale) :
    (zoomIn s).scale = min (s.scale + 1/5) s.maxScale ∧
    (zoomIn s).translateX = s.translateX ∧
    (zoomIn s).translateY = s.translateY ∧
    (zoomOut s).scale = max (s.scale - 1/5) s.minScale ∧
    (zoomOut s).translateX = s.translateX ∧
    (zoomOut s).translateY = s.translateY ∧
    zoomIn { s with scale := s.maxScale } = { s with scale := s.maxScale } ∧
    zoomOut { s with scale := s.minScale } = { s with scale := s.minScale } ∧
    (zoomIn (zoomIn (zoomIn { initState with scale := 3 }))).scale = 3 := by
  refine ⟨?_, ?_, ?_, ?_, ?_, ?_, ?_, ?_, ?_⟩
  · by_cases h : s.scale < s.maxScale
    · simp [zoomIn, h]
    · have hs : s.scale = s.maxScale := le_antisymm h2 (not_lt.mp h)
      simp only [zoomIn, if_neg h]
      rw [hs, min_eq_right (by linarith)]
  · by_cases h : s.scale < s.maxScale <;> simp [zoomIn, h]
  · by_cases h : s.scale < s.maxScale <;> simp [zoomIn, h]
  · by_cases h : s.minScale < s.scale
    · simp [zoomOut, h]
    · have hs : s.scale = s.minScale := le_antisymm (not_lt.mp h) h1
      simp only [zoomOut, gt_iff_lt, if_neg h]
      rw [hs, max_eq_right (by linarith)]
  · by_cases h : s.minScale < s.scale <;> simp [zoomOut, h]
  · by_cases h : s.minScale < s.scale <;> simp [zoomOut, h]
  · simp [zoomIn]
  · simp [zoomOut]
  · norm_num [zoomIn, initState]

/-- C2 witness: the general zoom-step theorem instantiated at the constructor
state. -/
theorem C2_zoom_step_witness :
    (initState.minScale ≤ initState.scale ∧ initState.scale ≤ initState.maxScale) ∧
    ((zoomIn initState).scale = min (initState.scale + 1/5) initState.maxScale ∧
     (zoomIn initState).translateX = initState.translateX ∧
     (zoomIn initState).translateY = initState.translateY ∧
     (zoomOut initState).scale = max (initState.scale - 1/5) initState.minScale ∧
     (zoomOut initState).translateX = initState.translateX ∧
     (zoomOut initState).translateY = initState.translateY ∧
     zoomIn { initState with scale := initState.maxScale } = { initState with scale := initState.maxScale } ∧
     zoomOut { initState with scale := initState.minScale } = { initState with scale := initState.minScale } ∧
     (zoomIn (zoomIn (zoomIn { initState with scale := 3 }))).scale = 3) :=
  ⟨⟨by norm_num [initState], by norm_num [initState]⟩,
   C2_zoom_step initState (by norm_num [initState]) (by norm_num [initState])⟩

/-- C3: `startPan (x0, y0)` activates the gesture with anchor
`(x0 - translateX, y0 - translateY)`, and a following `pan (x1, y1)` moves the
translation to `(x1 - anchorX, y1 - anchorY)` without touching the scale; the
concrete scenario `startPan(100,100); pan(150,120)` from translate `(0,0)`
gives `(50, 20)`. -/
theorem C3_start_pan_then_pan (s : MapState) (x0 y0 x1 y1 : ℚ) :
    (startPan x0 y0 s).isPanning = true ∧
    (startPan x0 y0 s).startX = x0 - s.translateX ∧
    (startPan x0 y0 s).startY = y0 - s.translateY ∧
    (pan x1 y1 (startPan x0 y0 s)).translateX = x1 - (x0 - s.translateX) ∧
    (pan x1 y1 (startPan x0 y0 s)).translateY = y1 - (y0 - s.translateY) ∧
    (pan x1 y1 (startPan x0 y0 s)).scale = s.scale ∧
    (pan 150 120 (startPan 100 100 initState)).translateX = 50 ∧
    (pan 150 120 (startPan 100 100 initState)).translateY = 20 := by
  refine ⟨rfl, rfl, rfl, ?_, ?_, ?_, ?_, ?_⟩ <;>
    norm_num [pan, startPan, initState]

/-- C4: `resetZoom` always yields scale 1 and translation `(0, 0)`, from any
prior state, with no precondition (a total function in the model). -/
theorem C4_reset_zoom (s : MapState) :
    (resetZoom s).scale = 1 ∧
    (resetZoom s).translateX = 0 ∧
    (resetZoom s).translateY = 0 :=
  ⟨rfl, rfl, rfl⟩

/-- C5: with the scale inside the bounds, `zoomIn` then `zoomOut` restores the
starting scale exactly whenever `scale + 0.2` does not overshoot `maxScale`,
and `zoomOut` then `zoomIn` restores it whenever `scale - 0.2` does not
undershoot `minScale`. -/
theorem C5_zoom_round_trip (s : MapState)
    (hmin : s.minScale ≤ s.scale) (hmax : s.scale ≤ s.maxScale) :
    (s.scale + 1/5 ≤ s.maxScale → (zoomOut (zoomIn s)).scale = s.scale) ∧
    (s.minScale ≤ s.scale - 1/5 → (zoomIn (zoomOut s)).scale = s.scale) := by
  constructor
  · intro h
    have hlt : s.scale < s.maxScale := by linarith
    simp only [zoomIn, if_pos hlt, min_eq_left h]
    simp only [zoomOut, gt_iff_lt]
    rw [if_pos (by simp; linarith)]
    simp
    linarith
  · intro h
    have hgt : s.minScale < s.scale := by linarith
    simp only [zoomOut, gt_iff_lt, if_pos hgt, max_eq_left h]
    simp only [zoomIn]
    rw [if_pos (by simp; linarith)]
    simp
    linarith

/-- C5 witness: the round-trip theorem instantiated at the constructor state
(scale 1), where both non-clamping conditions hold. -/
theorem C5_zoom_round_trip_witness :
    (initState.minScale ≤ initState.scale ∧ initState.scale ≤ initState.maxScale) ∧
    ((initState.scale + 1/5 ≤ initState.maxScale →
        (zoomOut (zoomIn initState)).scale = initState.scale) ∧
     (initState.minScale ≤ initState.scale - 1/5 →
        (zoomIn (zoomOut initState)).scale = initState.scale)) :=
  ⟨⟨by norm_num [initState], by norm_num [initState]⟩,
   C5_zoom_round_trip initState (by norm_num [initState]) (by norm_num [initState])⟩

/-- C6: `endPan` deactivates the gesture while leaving scale and translation
untouched, is total and idempotent, and `pan` on any state with no active
gesture (equivalently, any state just after an `endPan`) changes nothing. -/
theorem C6_end_pan_safe (s : MapState) (x y : ℚ) :
    (endPan s).isPanning = false ∧
    (endPan s).scale = s.scale ∧
    (endPan s).translateX = s.translateX ∧
    (endPan s).translateY = s.translateY ∧
    endPan (endPan s) = endPan s ∧
    pan x y (endPan s) = endPan s ∧
    pan x y { s with isPanning := false } = { s with isPanning := false } := by
  refine ⟨rfl, rfl, rfl, rfl, rfl, ?_, ?_⟩ <;> simp [pan, endPan]

/-- C7: the tooltip label is the id/title/text fallback name with underscores
turned into spaces, every `station` occurrence removed case-insensitively, and
whitespace trimmed; consequently no underscore survives into the label, and
the identifier `Raffles_Place_Station` displays as `Raffles Place`. -/
theorem C7_tooltip_label (id title : Option String) (textContent : String) :
    showStationTooltipLabel id title textContent =
      jsTrim (removeStationCI (replaceUnderscores
        (jsOr id (jsOr title (if textContent.isEmpty then "Station" else textContent))))) ∧
    '_' ∉ (showStationTooltipLabel id title textContent).toList ∧
    showStationTooltipLabel (some "Raffles_Place_Station") none "" = "Raffles Place" :=
  ⟨rfl, cleanStationName_no_underscore _, rfl⟩

/-- C8 counterexample: for the node with identifier `Raffles_Place_Station`,
the click handler surfaces the raw name `Raffles_Place_Station`, not the
cleaned tooltip label `Raffles Place`. -/
theorem C8_click_label_counterexample :
    handleStationClickName (some "Raffles_Place_Station") none "" ≠
      showStationTooltipLabel (some "Raffles_Place_Station") none "" := by
  decide

/-- C8 (amended): the click handler walks the same id → title → text fallback
chain but surfaces the raw name with none of the tooltip cleanup, and its
final fallback is `Unknown Station` where the tooltip uses `Station`; for a
node with a non-empty id the click name is the raw id while the tooltip shows
the cleaned id. -/
theorem C8_click_label_raw (id title : Option String) (textContent : String)
    (rawId : String) (hid : id = some rawId) (hne : rawId.isEmpty = false) :
    handleStationClickName id title textContent = rawId ∧
    handleStationClickAlert id title textContent =
      "Station: " ++ rawId ++ "\n\nThis feature can be expanded to show:\n- Connected lines\n- Nearby attractions\n- Transfer information\n- Exit information" ∧
    showStationTooltipLabel id title textContent = cleanStationName rawId ∧
    handleStationClickName none none "" = "Unknown Station" ∧
    showStationTooltipLabel none none "" = "" := by
  subst hid
  refine ⟨?_, ?_, ?_, rfl, rfl⟩
  · simp [handleStationClickName, jsOr, hne]
  · simp [handleStationClickAlert, handleStationClickName, jsOr, hne]
  · simp [showStationTooltipLabel, tooltipRawName, jsOr, hne]

/-- C8 witness: the amended click-label theorem at the node with identifier
`Raffles_Place_Station`. -/
theorem C8_click_label_raw_witness :
    (some "Raffles_Place_Station" = some "Raffles_Place_Station" ∧
     "Raffles_Place_Station".isEmpty = false) ∧
    (handleStationClickName (some "Raffles_Place_Station") none "" = "Raffles_Place_Station" ∧
     handleStationClickAlert (some "Raffles_Place_Station") none "" =
       "Station: " ++ "Raffles_Place_Station" ++ "\n\nThis feature can be expanded to show:\n- Connected lines\n- Nearby attractions\n- Transfer information\n- Exit information" ∧
     showStationTooltipLabel (some "Raffles_Place_Station") none "" =
       cleanStationName "Raffles_Place_Station" ∧
     handleStationClickName none none "" = "Unknown Station" ∧
     showStationTooltipLabel none none "" = "") :=
  ⟨⟨rfl, rfl⟩,
   C8_click_label_raw (some "Raffles_Place_Station") none "" "Raffles_Place_Station" rfl rfl⟩

/-- C9: enlarging the radius of a circular marker by the factor 1.5 on hover-enter
and dividing by 1.5 on hover-leave restores the radius exactly under exact
arithmetic; a marker of radius 5 grows to 7.5 and comes back to 5. -/
theorem C9_radius_round_trip (r : ℚ) :
    hoverLeaveRadius (hoverEnterRadius r) = r ∧
    hoverEnterRadius 5 = 15/2 ∧
    hoverLeaveRadius (hoverEnterRadius 5) = 5 := by
  refine ⟨?_, by norm_num [hoverEnterRadius],
    by norm_num [hoverEnterRadius, hoverLeaveRadius]⟩
  rw [hoverEnterRadius, hoverLeaveRadius]
  exact mul_div_cancel_right₀ r (by norm_num)

/-- C10 counterexample: when `contentDocument` is `null`, `setupSVGInteraction`
returns early with the state untouched and zero stations wired but emits no
diagnostic, contrary to the claim that a diagnostic is logged for a null
document. -/
theorem C10_null_doc_counterexample :
    setupSVGInteraction SvgAccess.nullDoc initState = (initState, 0, none) := rfl

/-- C10 (amended): a missing container or graphic reference makes `init` wire
no listeners and leave the state untouched; `setupSVGInteraction` never
changes the pan/zoom state, wires no stations when the document is null or
the access throws, logs the caught error as a diagnostic in the throwing
case, and logs nothing in the null-document case. -/
theorem C10_error_paths (hasMapWrapper hasMapObject : Bool) (s : MapState)
    (access : SvgAccess) (msg : String) :
    (init false hasMapObject s).listenersWired = false ∧
    (init false hasMapObject s).state = s ∧
    (init hasMapWrapper false s).listenersWired = false ∧
    (init hasMapWrapper false s).state = s ∧
    (setupSVGInteraction access s).1 = s ∧
    (setupSVGInteraction SvgAccess.nullDoc s).2.1 = 0 ∧
    (setupSVGInteraction SvgAccess.nullDoc s).2.2 = none ∧
    (setupSVGInteraction (SvgAccess.accessError msg) s).2.1 = 0 ∧
    (setupSVGInteraction (SvgAccess.accessError msg) s).2.2 =
      some ("Error setting up SVG interaction: " ++ msg) := by
  refine ⟨by simp [init], by simp [init], ?_, ?_, ?_, rfl, rfl, rfl, rfl⟩
  · cases hasMapWrapper <;> simp [init]
  · cases hasMapWrapper <;> simp [init]
  · cases access <;> rfl

end MRTMapInteraction
